import Mathlib

/-!
Shallow embedding of `TileStache/Goodies/VecTiles/server.py` (VecTiles
provider for PostGIS data sources): the zoom resolver (`Provider.renderTile`),
the tolerance table, the query builder (`build_query`), the response
constructor (`Response.__init__`), the feature fetcher (`get_features`) and
the multi-layer composer (`MultiResponse.get_tiles`).

Python exceptions are modelled with `Except` over an explicit error type;
Python floats are modelled as exact rationals (`ℚ`); the SQL strings that the
code concatenates are modelled as an abstract syntax tree whose constructors
correspond one-to-one to the string templates used by the source.
-/

/-- The Python-level failures the embedded code can raise. -/
inductive PyErr where
  /-- `IndexError`: list index out of range. -/
  | indexError
  /-- `UnboundLocalError` / `NameError`: a local variable referenced before
  assignment (carries the variable name). -/
  | unboundLocal (name : String)
  /-- A failed `assert` statement. -/
  | assertionError (msg : String)
  /-- A bare `raise Exception(...)`. -/
  | exception (msg : String)
  /-- `psycopg2.extensions.TransactionRollbackError` propagated after the
  retry budget is exhausted. -/
  | transactionRollback
  /-- `ValueError`. -/
  | valueError (msg : String)
  /-- `Core.KnownUnknown` raised for unknown sub-layer names; carries the
  offending layer names. -/
  | unknownLayers (layers : List String)
  /-- `Core.KnownUnknown` raised for a non-JSON sub-layer mime type; carries
  the offending (layer, mime) pair. -/
  | badMime (layer mime : String)
  /-- `Core.KnownUnknown` raised for a sub-layer payload of the wrong
  collection type; carries the offending (layer, type) pair. -/
  | badType (layer typ : String)
deriving DecidableEq, Repr

deriving instance DecidableEq for Except

/-- The exact rational value of the IEEE-754 double `math.pi`
(`884279719003555 * 2⁻⁴⁸`). -/
def piRat : ℚ := 884279719003555 / 281474976710656

/-- `tolerances = [6378137 * 2 * pi / (2 ** (zoom + 8)) for zoom in range(22)]`
(line 35): the per-zoom ground-distance tolerance table, 22 entries for zooms
0 through 21. Float arithmetic is modelled exactly over `ℚ`. -/
def tolerances : List ℚ :=
  (List.range 22).map (fun zoom => 6378137 * 2 * piRat / 2 ^ (zoom + 8))

theorem tolerances_length : tolerances.length = 22 := by
  simp [tolerances]

/-- Lines 152-155 of `Provider.renderTile`:
`try: geometry = self.geometries[coord.zoom] except IndexError: geometry = self.geometries[-1]`.
`geometries[-1]` on an empty list raises `IndexError` again, uncaught. -/
def resolveGeometry (geometries : List (Option String)) (zoom : ℕ) :
    Except PyErr (Option String) :=
  match geometries[zoom]? with
  | some g => .ok g
  | none =>
    match geometries.getLast? with
    | some g => .ok g
    | none => .error .indexError

/-- Lines 161-164 of `Provider.renderTile`: the simplification tolerance.
`None` when the zoom is suppressed; `simplify * tolerances[zoom]` when
`zoom < simplify_until` (an `IndexError` when that indexes past the 22-entry
table); `None` otherwise. -/
def computeTolerance (suppress : Finset ℕ) (simplify : ℚ)
    (simplify_until zoom : ℕ) : Except PyErr (Option ℚ) :=
  if zoom ∈ suppress then .ok none
  else if zoom < simplify_until then
    match tolerances[zoom]? with
    | some t => .ok (some (simplify * t))
    | none => .error .indexError
  else .ok none

/-- Modelled from the spec: "the last non-absent entry in the table
(searched from the end)" — the resolution rule the spec's fallback law
claims, written from the spec's words for comparison with the source's
`resolveGeometry`. -/
def lastPresentEntry (geometries : List (Option String)) : Option String :=
  (geometries.reverse.filterMap id).head?

/-- C1, counterexample: on the table `[some "way", none]` at zoom 2 (past the
table), the source resolves to the *last* slot, which is absent (`none`),
while the claim's "last non-absent entry searched from the end" is
`some "way"`. The two disagree. -/
theorem c1_counterexample :
    resolveGeometry [some "way", none] 2 = .ok none ∧
      lastPresentEntry [some "way", none] = some "way" := by
  constructor
  · rfl
  · rfl

/-- C1, amended: for every zoom at or past the end of a nonempty zoom query
table, `renderTile` resolves the geometry template to the *last entry of the
table* — whether or not that entry is present. -/
theorem c1_amended (geometries : List (Option String)) (zoom : ℕ)
    (h1 : geometries ≠ []) (h2 : geometries.length ≤ zoom) :
    resolveGeometry geometries zoom = .ok (geometries.getLast h1) := by
  unfold resolveGeometry
  rw [List.getElem?_eq_none h2, List.getLast?_eq_getLast geometries h1]

/-- Witness for `c1_amended` at the concrete table `[some "way", none]`,
zoom 5. -/
theorem c1_amended_witness :
    resolveGeometry [some "way", none] 5 = .ok none := by
  have h := c1_amended [some "way", none] 5 (by simp) (by simp)
  simpa using h

/-- C6: for every zoom below 22 (the tolerance table's extent), the tolerance
is `None` whenever the zoom is in the suppression set (suppression takes
precedence over `simplify_until`); otherwise it is
`simplify * tolerances[zoom]` when `zoom < simplify_until` and `None` when
`zoom ≥ simplify_until`. -/
theorem c6_tolerance_rule (suppress : Finset ℕ) (simplify : ℚ)
    (simplify_until zoom : ℕ) (hz : zoom < 22) :
    (zoom ∈ suppress →
      computeTolerance suppress simplify simplify_until zoom = .ok none) ∧
    (zoom ∉ suppress → zoom < simplify_until →
      computeTolerance suppress simplify simplify_until zoom =
        .ok (some (simplify *
          tolerances.get ⟨zoom, by rw [tolerances_length]; exact hz⟩))) ∧
    (zoom ∉ suppress → simplify_until ≤ zoom →
      computeTolerance suppress simplify simplify_until zoom = .ok none) := by
  refine ⟨fun hs => ?_, fun hs hlt => ?_, fun hs hge => ?_⟩
  · simp [computeTolerance, hs]
  · have hlen : zoom < tolerances.length := by rw [tolerances_length]; exact hz
    simp [computeTolerance, hs, hlt, List.getElem?_eq_getElem hlen]
  · simp [computeTolerance, hs, Nat.not_lt.mpr hge]

/-- Witness for `c6_tolerance_rule`: zoom 3 in the suppression set yields a
`None` tolerance even though `3 < simplify_until = 16`. -/
theorem c6_tolerance_rule_witness :
    computeTolerance {3} 1 16 3 = .ok none :=
  (c6_tolerance_rule {3} 1 16 3 (by decide)).1 (by decide)

/-- The tile's mercator bounding box `(xmin, ymin, xmax, ymax)`
(the 4-tuple `bounds` of the source). -/
structure Bounds where
  x0 : ℚ
  y0 : ℚ
  x1 : ℚ
  y1 : ℚ
deriving DecidableEq, Repr

/-- The SQL literal
`ST_SetSRID(ST_MakeBox2D(ST_MakePoint(x0, y0), ST_MakePoint(x1, y1)), srid)`
built on lines 461-462 of `build_query`. -/
structure BBox where
  x0 : ℚ
  y0 : ℚ
  x1 : ℚ
  y1 : ℚ
  srid : ℤ
deriving DecidableEq, Repr

/-- The geometry SQL expression built by `build_query` (lines 464-482).
Each constructor corresponds to one string template of the source. -/
inductive GeomExpr where
  /-- The raw configured geometry expression. -/
  | raw (g : String)
  /-- `ST_SimplifyPreserveTopology(%s, %.12f)` (line 469). -/
  | simplifyPreserveTopology (e : GeomExpr) (tol : ℚ)
  /-- `ST_Intersection(%s, %s)` with the padded bbox (line 472). -/
  | intersection (e : GeomExpr) (bbox : BBox)
  /-- `ST_Transform(%s, 4326)` (line 475). -/
  | transform (e : GeomExpr) (srid : ℤ)
  /-- `ST_TransScale(%s, %.12f, %.12f, %.12f, %.12f)` (lines 479-482). -/
  | transScale (e : GeomExpr) (dx dy sx sy : ℚ)
deriving DecidableEq, Repr

/-- One entry of the attribute list handed to `build_query`. Configured
attributes are opaque SQL strings; the injected identifier
`Substr(MD5(ST_AsBinary(%s)), 1, 10) AS __id__` (line 488) is kept
structurally distinct so its presence in the emitted query is observable. -/
inductive Attr where
  | plain (s : String)
  | idHash (geometry : String)
deriving DecidableEq, Repr

/-- `true` exactly on the injected hash-of-geometry identifier. -/
def isIdHashAttr : Attr → Bool
  | .idHash _ => true
  | .plain _ => false

/-- The SELECT statement returned by `build_query` (lines 493-497):
`SELECT <attributes>, ST_AsBinary(<geom>) AS __geometry__ FROM <table>
WHERE <geometry> && <bbox>`. -/
structure SelectQuery where
  attributes : List Attr
  geom : GeomExpr
  table : String
  whereGeometry : String
  bbox : BBox
deriving DecidableEq, Repr

/-- One item of the emitted SELECT list: an attribute, or the single
`ST_AsBinary(...) AS __geometry__` geometry column. -/
inductive SelectItem where
  | attrItem (a : Attr)
  | geomItem (g : GeomExpr)
deriving DecidableEq, Repr

/-- The full SELECT list of an emitted query, in source order: all
attributes followed by the geometry column. -/
def selectItems (q : SelectQuery) : List SelectItem :=
  q.attributes.map SelectItem.attrItem ++ [SelectItem.geomItem q.geom]

/-- `true` exactly on the geometry column of a SELECT list. -/
def isGeomItem : SelectItem → Bool
  | .geomItem _ => true
  | .attrItem _ => false

/-- `true` exactly on an injected hash identifier item of a SELECT list. -/
def isIdHashItem : SelectItem → Bool
  | .attrItem a => isIdHashAttr a
  | .geomItem _ => false

/-- The semantics of `ST_TransScale(g, dx, dy, sx, sy)` on a single point:
translate by `(dx, dy)`, then scale by `(sx, sy)`. -/
def transScalePoint (dx dy sx sy x y : ℚ) : ℚ × ℚ :=
  ((x + dx) * sx, (y + dy) * sy)

/-- Lines 461-462 of `build_query`: the bounding-box literal, expanded by
`padding` on every side. -/
def paddedBBox (bounds : Bounds) (padding : ℚ) (srid : ℤ) : BBox :=
  ⟨bounds.x0 - padding, bounds.y0 - padding,
   bounds.x1 + padding, bounds.y1 + padding, srid⟩

/-- Lines 464-482 of `build_query`: the geometry transform chain. Simplify
(when a tolerance is given), then clip to the padded bbox (when clipping is
on), then reproject to SRID 4326 (when geographic output is requested), then
translate+scale against the *un-padded* bounds (when `scale` is truthy —
Python's `if scale:` treats both `None` and `0` as false). -/
def pipelineGeom (geometry : String) (bounds : Bounds) (tolerance : Option ℚ)
    (is_geo is_clipped : Bool) (bbox : BBox) (scale : Option ℚ) : GeomExpr :=
  let geom := GeomExpr.raw geometry
  let geom := match tolerance with
    | some t => GeomExpr.simplifyPreserveTopology geom t
    | none => geom
  let geom := if is_clipped then GeomExpr.intersection geom bbox else geom
  let geom := if is_geo then GeomExpr.transform geom 4326 else geom
  match scale with
  | some s =>
    if s ≠ 0 then
      GeomExpr.transScale geom (-bounds.x0) (-bounds.y0)
        (s / (bounds.x1 - bounds.x0)) (s / (bounds.y1 - bounds.y0))
    else geom
  | none => geom

/-- `build_query` (lines 458-497). Returns the emitted SELECT statement
together with the final values of the caller's `attributes` list and
`columns` set — the source mutates both in place (lines 487-489), which the
embedding renders as explicit state threading. -/
def build_query (srid : ℤ) (table geometry : String) (attributes : List Attr)
    (columns : Finset String) (bounds : Bounds) (tolerance : Option ℚ)
    (is_geo is_clipped : Bool) (padding : ℚ) (scale : Option ℚ) :
    Except PyErr (SelectQuery × List Attr × Finset String) :=
  let bbox := paddedBBox bounds padding srid
  let geom := pipelineGeom geometry bounds tolerance is_geo is_clipped bbox scale
  if "__geometry__" ∉ columns then
    .error (.exception "There is supposed to be a __geometry__ column.")
  else
    let attributes :=
      if "__id__" ∉ columns then attributes ++ [Attr.idHash geometry]
      else attributes
    let columns :=
      if "__id__" ∉ columns then insert "__id__" columns else columns
    .ok (⟨attributes, geom, table, geometry, bbox⟩, attributes, columns)

/-- When the probed column set lacks `__geometry__`, `build_query` raises
(line 485). -/
theorem build_query_missing_geometry (srid : ℤ) (table geometry : String)
    (attributes : List Attr) (columns : Finset String) (bounds : Bounds)
    (tolerance : Option ℚ) (is_geo is_clipped : Bool) (padding : ℚ)
    (scale : Option ℚ) (hg : "__geometry__" ∉ columns) :
    build_query srid table geometry attributes columns bounds tolerance
        is_geo is_clipped padding scale =
      .error (.exception "There is supposed to be a __geometry__ column.") := by
  simp [build_query, hg]

/-- When `__geometry__` is present and `__id__` is absent, `build_query`
appends the hash identifier to the attribute list and registers `__id__` in
the column set (lines 487-489). -/
theorem build_query_id_missing (srid : ℤ) (table geometry : String)
    (attributes : List Attr) (columns : Finset String) (bounds : Bounds)
    (tolerance : Option ℚ) (is_geo is_clipped : Bool) (padding : ℚ)
    (scale : Option ℚ) (hg : "__geometry__" ∈ columns)
    (hid : "__id__" ∉ columns) :
    build_query srid table geometry attributes columns bounds tolerance
        is_geo is_clipped padding scale =
      .ok (⟨attributes ++ [Attr.idHash geometry],
            pipelineGeom geometry bounds tolerance is_geo is_clipped
              (paddedBBox bounds padding srid) scale,
            table, geometry, paddedBBox bounds padding srid⟩,
           attributes ++ [Attr.idHash geometry],
           insert "__id__" columns) := by
  simp [build_query, hg, hid]

/-- When both `__geometry__` and `__id__` are present, `build_query` leaves
the attribute list and the column set untouched. -/
theorem build_query_id_present (srid : ℤ) (table geometry : String)
    (attributes : List Attr) (columns : Finset String) (bounds : Bounds)
    (tolerance : Option ℚ) (is_geo is_clipped : Bool) (padding : ℚ)
    (scale : Option ℚ) (hg : "__geometry__" ∈ columns)
    (hid : "__id__" ∈ columns) :
    build_query srid table geometry attributes columns bounds tolerance
        is_geo is_clipped padding scale =
      .ok (⟨attributes,
            pipelineGeom geometry bounds tolerance is_geo is_clipped
              (paddedBBox bounds padding srid) scale,
            table, geometry, paddedBBox bounds padding srid⟩,
           attributes, columns) := by
  simp [build_query, hg, hid]

/-- C4: every query emitted by `build_query` nests the geometry transforms in
the fixed order simplify (only with a non-null tolerance), then clip to the
padding-expanded bbox (only when clipping is enabled), then reproject to
SRID 4326 (only when requested), then translate+scale; and the
translate+scale transform maps the *un-padded* bounds to `[0, scale]` on
both axes, so geometry in the padding region may land outside `[0, scale]`. -/
theorem c4_transform_order (srid : ℤ) (table geometry : String)
    (attrs : List Attr) (cols : Finset String) (bounds : Bounds)
    (tolerance : Option ℚ) (is_geo is_clipped : Bool) (padding : ℚ)
    (scale : Option ℚ) (q : SelectQuery) (a : List Attr) (c : Finset String)
    (h : build_query srid table geometry attrs cols bounds tolerance is_geo
          is_clipped padding scale = .ok (q, a, c)) :
    (q.bbox = ⟨bounds.x0 - padding, bounds.y0 - padding,
               bounds.x1 + padding, bounds.y1 + padding, srid⟩) ∧
    (q.geom =
      (match scale with
       | some s =>
         if s ≠ 0 then
           GeomExpr.transScale
             (if is_geo then
                GeomExpr.transform
                  (if is_clipped then
                     GeomExpr.intersection
                       (match tolerance with
                        | some t => GeomExpr.simplifyPreserveTopology
                            (GeomExpr.raw geometry) t
                        | none => GeomExpr.raw geometry)
                       q.bbox
                   else
                     match tolerance with
                     | some t => GeomExpr.simplifyPreserveTopology
                         (GeomExpr.raw geometry) t
                     | none => GeomExpr.raw geometry)
                  4326
              else
                if is_clipped then
                  GeomExpr.intersection
                    (match tolerance with
                     | some t => GeomExpr.simplifyPreserveTopology
                         (GeomExpr.raw geometry) t
                     | none => GeomExpr.raw geometry)
                    q.bbox
                else
                  match tolerance with
                  | some t => GeomExpr.simplifyPreserveTopology
                      (GeomExpr.raw geometry) t
                  | none => GeomExpr.raw geometry)
             (-bounds.x0) (-bounds.y0)
             (s / (bounds.x1 - bounds.x0)) (s / (bounds.y1 - bounds.y0))
         else
           (if is_geo then
              GeomExpr.transform
                (if is_clipped then
                   GeomExpr.intersection
                     (match tolerance with
                      | some t => GeomExpr.simplifyPreserveTopology
                          (GeomExpr.raw geometry) t
                      | none => GeomExpr.raw geometry)
                     q.bbox
                 else
                   match tolerance with
                   | some t => GeomExpr.simplifyPreserveTopology
                       (GeomExpr.raw geometry) t
                   | none => GeomExpr.raw geometry)
                4326
            else
              if is_clipped then
                GeomExpr.intersection
                  (match tolerance with
                   | some t => GeomExpr.simplifyPreserveTopology
                       (GeomExpr.raw geometry) t
                   | none => GeomExpr.raw geometry)
                  q.bbox
              else
                match tolerance with
                | some t => GeomExpr.simplifyPreserveTopology
                    (GeomExpr.raw geometry) t
                | none => GeomExpr.raw geometry)
       | none =>
         if is_geo then
           GeomExpr.transform
             (if is_clipped then
                GeomExpr.intersection
                  (match tolerance with
                   | some t => GeomExpr.simplifyPreserveTopology
                       (GeomExpr.raw geometry) t
                   | none => GeomExpr.raw geometry)
                  q.bbox
              else
                match tolerance with
                | some t => GeomExpr.simplifyPreserveTopology
                    (GeomExpr.raw geometry) t
                | none => GeomExpr.raw geometry)
             4326
         else
           if is_clipped then
             GeomExpr.intersection
               (match tolerance with
                | some t => GeomExpr.simplifyPreserveTopology
                    (GeomExpr.raw geometry) t
                | none => GeomExpr.raw geometry)
               q.bbox
           else
             match tolerance with
             | some t => GeomExpr.simplifyPreserveTopology
                 (GeomExpr.raw geometry) t
             | none => GeomExpr.raw geometry)) ∧
    (∀ s : ℚ, scale = some s →
      bounds.x0 ≠ bounds.x1 → bounds.y0 ≠ bounds.y1 →
      transScalePoint (-bounds.x0) (-bounds.y0)
          (s / (bounds.x1 - bounds.x0)) (s / (bounds.y1 - bounds.y0))
          bounds.x0 bounds.y0 = (0, 0) ∧
      transScalePoint (-bounds.x0) (-bounds.y0)
          (s / (bounds.x1 - bounds.x0)) (s / (bounds.y1 - bounds.y0))
          bounds.x1 bounds.y1 = (s, s)) := by
  have hg : "__geometry__" ∈ cols := by
    by_contra hg
    rw [build_query_missing_geometry _ _ _ _ _ _ _ _ _ _ _ hg] at h
    exact Except.noConfusion h
  have hq : q.geom = pipelineGeom geometry bounds tolerance is_geo is_clipped
      (paddedBBox bounds padding srid) scale ∧
      q.bbox = paddedBBox bounds padding srid := by
    by_cases hid : "__id__" ∈ cols
    · rw [build_query_id_present _ _ _ _ _ _ _ _ _ _ _ hg hid] at h
      obtain ⟨rfl, -, -⟩ := Prod.mk.injEq .. ▸ (Except.ok.injEq .. ▸ h)
      exact ⟨rfl, rfl⟩
    · rw [build_query_id_missing _ _ _ _ _ _ _ _ _ _ _ hg hid] at h
      obtain ⟨rfl, -, -⟩ := Prod.mk.injEq .. ▸ (Except.ok.injEq .. ▸ h)
      exact ⟨rfl, rfl⟩
  refine ⟨hq.2, ?_, ?_⟩
  · rw [hq.1, hq.2]
    unfold pipelineGeom
    cases tolerance <;> cases scale <;> cases is_geo <;> cases is_clipped <;>
      simp [paddedBBox]
  · rintro s rfl hx hy
    constructor
    · simp [transScalePoint]
    · simp only [transScalePoint, Prod.mk.injEq, ← sub_eq_add_neg]
      constructor
      · rw [mul_comm]
        exact div_mul_cancel₀ s (sub_ne_zero.mpr (Ne.symm hx))
      · rw [mul_comm]
        exact div_mul_cancel₀ s (sub_ne_zero.mpr (Ne.symm hy))

/-- Witness for `c4_transform_order` at a concrete query (simplify, clip,
reproject and scale all enabled): the translate+scale built for the
un-padded bounds `(0,0)—(4,4)` with scale 3 sends `(4,4)` to `(3,3)`. -/
theorem c4_transform_order_witness :
    transScalePoint (-(0 : ℚ)) (-0) (3 / (4 - 0)) (3 / (4 - 0)) 4 4
      = (3, 3) := by
  have h := build_query_id_present 900913 "t" "way" []
    {"__geometry__", "__id__"} ⟨0, 0, 4, 4⟩ (some 2) true true 1 (some 3)
    (by decide) (by decide)
  exact ((c4_transform_order 900913 "t" "way" [] {"__geometry__", "__id__"}
    ⟨0, 0, 4, 4⟩ (some 2) true true 1 (some 3) _ _ _ h).2.2 3 rfl
    (by norm_num) (by norm_num)).2

/-- C5: `build_query` fails fatally when `__geometry__` is missing from the
known column set; when `__id__` is missing it appends the truncated
hash-of-geometry identifier (aliased to `__id__`) to the attribute list,
registers `__id__` in the column set, and the emitted SELECT list then
carries exactly one geometry column and exactly one injected identifier
column (when, as for configured attributes, the input list carries none). -/
theorem c5_identifier_guarantee (srid : ℤ) (table geometry : String)
    (attrs : List Attr) (cols : Finset String) (bounds : Bounds)
    (tolerance : Option ℚ) (is_geo is_clipped : Bool) (padding : ℚ)
    (scale : Option ℚ) :
    ("__geometry__" ∉ cols →
      build_query srid table geometry attrs cols bounds tolerance is_geo
          is_clipped padding scale =
        .error (.exception "There is supposed to be a __geometry__ column.")) ∧
    ("__geometry__" ∈ cols → "__id__" ∉ cols →
      ∀ q a c, build_query srid table geometry attrs cols bounds tolerance
          is_geo is_clipped padding scale = .ok (q, a, c) →
        a = attrs ++ [Attr.idHash geometry] ∧
        q.attributes = attrs ++ [Attr.idHash geometry] ∧
        "__id__" ∈ c ∧
        (selectItems q).countP isGeomItem = 1 ∧
        ((∀ x ∈ attrs, isIdHashAttr x = false) →
          (selectItems q).countP isIdHashItem = 1)) ∧
    ("__geometry__" ∈ cols →
      ∃ out, build_query srid table geometry attrs cols bounds tolerance
          is_geo is_clipped padding scale = .ok out) := by
  refine ⟨fun hg => build_query_missing_geometry _ _ _ _ _ _ _ _ _ _ _ hg,
    fun hg hid q a c h => ?_, fun hg => ?_⟩
  · have h2 := Except.ok.inj
      ((build_query_id_missing _ _ _ _ _ _ _ _ _ _ _ hg hid).symm.trans h)
    injection h2 with hq h3
    injection h3 with ha hc
    subst hq ha hc
    refine ⟨rfl, rfl, Finset.mem_insert_self _ _, ?_, fun hnone => ?_⟩
    · have h1 : List.countP (isGeomItem ∘ SelectItem.attrItem)
          (attrs ++ [Attr.idHash geometry]) = 0 := by
        rw [List.countP_eq_zero]
        intro x hx
        simp [Function.comp, isGeomItem]
      simp only [selectItems, List.countP_append, List.countP_map, h1]
      simp [isGeomItem, List.countP_cons]
    · have hz : List.countP (isIdHashItem ∘ SelectItem.attrItem) attrs = 0 := by
        rw [List.countP_eq_zero]
        intro x hx
        have hx2 := hnone x hx
        simp [Function.comp, isIdHashItem, hx2]
      have h4 : List.countP (isIdHashItem ∘ SelectItem.attrItem)
          (attrs ++ [Attr.idHash geometry]) = 1 := by
        rw [List.countP_append, hz]
        simp [Function.comp, isIdHashItem, isIdHashAttr, List.countP_cons]
      simp only [selectItems, List.countP_append, List.countP_map, h4]
      simp [isIdHashItem, List.countP_cons]
  · by_cases hid : "__id__" ∈ cols
    · exact ⟨_, build_query_id_present _ _ _ _ _ _ _ _ _ _ _ hg hid⟩
    · exact ⟨_, build_query_id_missing _ _ _ _ _ _ _ _ _ _ _ hg hid⟩

/-- Witness for `c5_identifier_guarantee`: with `known_columns`
containing only `__geometry__`, the emitted query gains the hash identifier
aliased to `__id__`, `__id__` joins the column set, and the SELECT list has
exactly one injected identifier. -/
theorem c5_identifier_guarantee_witness :
    ∃ q a c, build_query 900913 "t" "way" [Attr.plain "name"]
        {"__geometry__"} ⟨0, 0, 4, 4⟩ none false true 0 none =
          .ok (q, a, c) ∧
      a = [Attr.plain "name"] ++ [Attr.idHash "way"] ∧ "__id__" ∈ c ∧
      (selectItems q).countP isIdHashItem = 1 := by
  have h := build_query_id_missing 900913 "t" "way" [Attr.plain "name"]
    {"__geometry__"} ⟨0, 0, 4, 4⟩ none false true 0 none
    (by decide) (by decide)
  have hc := (c5_identifier_guarantee 900913 "t" "way" [Attr.plain "name"]
    {"__geometry__"} ⟨0, 0, 4, 4⟩ none false true 0 none).2.1
    (by decide) (by decide) _ _ _ h
  exact ⟨_, _, _, h, hc.1, hc.2.2.1, hc.2.2.2.2 (by decide)⟩

/-- `oscimap.padding * tolerances[coord.zoom]` resp.
`mapbox.padding * tolerances[coord.zoom]` (lines 287-288): the per-zoom
tolerance table indexed by the raw zoom, an `IndexError` for zoom ≥ 22. -/
def tolerancesAt (zoom : ℕ) : Except PyErr ℚ :=
  match tolerances[zoom]? with
  | some t => .ok t
  | none => .error .indexError

/-- The per-format query set built by `Response.__init__` (line 289):
`TopoJSON` and `JSON` share `geo_query`; `MVT` uses `merc_query`;
`OpenScienceMap` and `Mapbox` use their own padded, scaled variants. -/
structure RenderedResponse where
  geoQuery : SelectQuery
  mercQuery : SelectQuery
  oscimapQuery : SelectQuery
  mapboxQuery : SelectQuery
deriving DecidableEq, Repr

/-- `Response.__init__` (lines 270-289): builds the four per-format queries
in source order, threading the caller's `attributes` list and `columns` set
through the four `build_query` calls (the source mutates them in place, so
each later call sees the earlier calls' changes, and the final values are
the caller's objects' final states). The codec constants `oscimap.padding`,
`oscimap.extents`, `mapbox.padding`, `mapbox.extents` live in codec modules
outside the embedded file and are taken as parameters. -/
def Response_init (srid : ℤ) (table geometry : String)
    (attributes : List Attr) (columns : Finset String) (bounds : Bounds)
    (tolerance : Option ℚ) (zoom : ℕ) (clip : Bool)
    (oscimapPadding oscimapExtents mapboxPadding mapboxExtents : ℚ) :
    Except PyErr (RenderedResponse × List Attr × Finset String) := do
  let (geo_query, a1, c1) ←
    build_query srid table geometry attributes columns bounds tolerance
      true clip 0 none
  let (merc_query, a2, c2) ←
    build_query srid table geometry a1 c1 bounds tolerance false clip 0 none
  let t1 ← tolerancesAt zoom
  let (oscimap_query, a3, c3) ←
    build_query srid table geometry a2 c2 bounds tolerance false clip
      (oscimapPadding * t1) (some oscimapExtents)
  let t2 ← tolerancesAt zoom
  let (mapbox_query, a4, c4) ←
    build_query srid table geometry a3 c3 bounds tolerance false clip
      (mapboxPadding * t2) (some mapboxExtents)
  .ok (⟨geo_query, merc_query, oscimap_query, mapbox_query⟩, a4, c4)

/-- The per-provider state of `Provider.__init__` (lines 118-147) that
`renderTile` reads and (through in-place mutation) writes: the zoom query
table, the per-geometry attribute lists, the cached per-geometry column
sets, and the scalar configuration. -/
structure ProviderState where
  geometries : List (Option String)
  attributes : List (String × List Attr)
  columns : List (String × Finset String)
  table : String
  srid : ℤ
  simplify : ℚ
  simplify_until : ℕ
  suppress_simplification : Finset ℕ
  clip : Bool
deriving DecidableEq

/-- Replace the value stored under `key` in an association-list dictionary
(no-op when the key is absent). -/
def updateEntry {α : Type} : List (String × α) → String → α → List (String × α)
  | [], _, _ => []
  | (k, v) :: rest, key, val =>
    if k == key then (key, val) :: rest
    else (k, v) :: updateEntry rest key val

theorem lookup_updateEntry {α : Type} (l : List (String × α))
    (key : String) (val : α) (w : α) (h : l.lookup key = some w) :
    (updateEntry l key val).lookup key = some val := by
  induction l with
  | nil => simp [List.lookup] at h
  | cons kv rest ih =>
    obtain ⟨k, v⟩ := kv
    by_cases hk : k = key
    · subst hk
      simp [updateEntry, List.lookup]
    · have hk1 : (k == key) = false := beq_eq_false_iff_ne.mpr hk
      have hk2 : (key == k) = false := beq_eq_false_iff_ne.mpr (Ne.symm hk)
      simp only [List.lookup, hk2] at h
      simp only [updateEntry, hk1, Bool.false_eq_true, if_false,
        List.lookup, hk2]
      exact ih h

/-- Lines 170-172 of `Provider.renderTile`: resolve the column set for a
geometry, probing the database only on a cache miss and caching the probe
result. `probe` stands for `query_columns` (a zero-row `LIMIT 0` round
trip). Returns the column set and the updated cache. -/
def lookupColumns (cache : List (String × Finset String)) (geometry : String)
    (probe : String → Finset String) :
    Finset String × List (String × Finset String) :=
  match cache.lookup geometry with
  | some cs => (cs, cache)
  | none => (probe geometry, cache ++ [(geometry, probe geometry)])

/-- `Provider.renderTile` (lines 149-175). The tile `bounds` (lines 166-168,
a projection of the tile corners through the layer's projection, code
outside this file) is a parameter. On a present geometry slot the function
returns the constructed response and the provider state as left behind by
the in-place mutations (column cache write, and `build_query`'s mutation of
the cached column set and of the stored attribute list when the dictionary
holds one for this geometry). On an absent (or empty-string, hence falsy)
slot the source executes `return EmptyResponse(bounds)` at line 157, which
raises `UnboundLocalError`: the local `bounds` is only assigned later, at
line 168. -/
def renderTile (ps : ProviderState) (zoom : ℕ) (bounds : Bounds)
    (probe : String → Finset String)
    (oscimapPadding oscimapExtents mapboxPadding mapboxExtents : ℚ) :
    Except PyErr (RenderedResponse × ProviderState) := do
  let gOpt ← resolveGeometry ps.geometries zoom
  match gOpt with
  | none => .error (.unboundLocal "bounds")
  | some geometry =>
    if geometry = "" then .error (.unboundLocal "bounds")
    else do
      let attrs := (ps.attributes.lookup geometry).getD []
      let tolerance ← computeTolerance ps.suppress_simplification ps.simplify
        ps.simplify_until zoom
      let (columns, cache2) := lookupColumns ps.columns geometry probe
      let (resp, a4, c4) ← Response_init ps.srid ps.table geometry attrs
        columns bounds tolerance zoom ps.clip
        oscimapPadding oscimapExtents mapboxPadding mapboxExtents
      .ok (resp, { ps with
        columns := updateEntry cache2 geometry c4,
        attributes :=
          if (ps.attributes.lookup geometry).isSome then
            updateEntry ps.attributes geometry a4
          else ps.attributes })

theorem bind_ok_eq {ε α β : Type} (a : α) (f : α → Except ε β) :
    bind (Except.ok a) f = f a := rfl

theorem bind_error_eq {ε α β : Type} (e : ε) (f : α → Except ε β) :
    bind (Except.error e : Except ε α) f = .error e := rfl

theorem tolerancesAt_ok (zoom : ℕ) (hz : zoom < 22) :
    tolerancesAt zoom =
      .ok (tolerances.get ⟨zoom, by rw [tolerances_length]; exact hz⟩) := by
  have hlen : zoom < tolerances.length := by rw [tolerances_length]; exact hz
  simp [tolerancesAt, List.getElem?_eq_getElem hlen]

theorem tolerancesAt_indexError (zoom : ℕ) (hz : 22 ≤ zoom) :
    tolerancesAt zoom = .error .indexError := by
  have hlen : tolerances.length ≤ zoom := by rw [tolerances_length]; exact hz
  simp [tolerancesAt, List.getElem?_eq_none hlen]

theorem computeTolerance_isOk (suppress : Finset ℕ) (simplify : ℚ)
    (simplify_until zoom : ℕ) (hz : zoom < 22) :
    ∃ t, computeTolerance suppress simplify simplify_until zoom = .ok t := by
  by_cases h1 : zoom ∈ suppress
  · exact ⟨none, by simp [computeTolerance, h1]⟩
  · by_cases h2 : zoom < simplify_until
    · have hlen : zoom < tolerances.length := by rw [tolerances_length]; exact hz
      exact ⟨some (simplify * tolerances.get ⟨zoom, hlen⟩),
        by simp [computeTolerance, h1, h2, List.getElem?_eq_getElem hlen]⟩
    · exact ⟨none, by simp [computeTolerance, h1, h2]⟩

/-- For zoom ≥ 22, lines 161-164 either produce a `None` tolerance or
raise `IndexError` (when `zoom < simplify_until` and not suppressed). -/
theorem computeTolerance_high_zoom (suppress : Finset ℕ) (simplify : ℚ)
    (simplify_until zoom : ℕ) (hz : 22 ≤ zoom) :
    computeTolerance suppress simplify simplify_until zoom = .ok none ∨
    computeTolerance suppress simplify simplify_until zoom =
      .error .indexError := by
  have hlen : tolerances.length ≤ zoom := by rw [tolerances_length]; exact hz
  by_cases h1 : zoom ∈ suppress
  · exact .inl (by simp [computeTolerance, h1])
  · by_cases h2 : zoom < simplify_until
    · exact .inr (by simp [computeTolerance, h1, h2,
        List.getElem?_eq_none hlen])
    · exact .inl (by simp [computeTolerance, h1, h2])

/-- `Response.__init__` with a column set lacking `__id__`: the first
`build_query` call injects the identifier; the three later calls see the
mutated list and set and leave them unchanged, so the final attribute list
has exactly one appended identifier and the final column set is the original
plus `__id__`. -/
theorem Response_init_id_missing (srid : ℤ) (table geometry : String)
    (attrs : List Attr) (cols : Finset String) (bounds : Bounds)
    (tol : Option ℚ) (zoom : ℕ) (clip : Bool) (op oe mp me : ℚ)
    (hz : zoom < 22) (hg : "__geometry__" ∈ cols) (hid : "__id__" ∉ cols) :
    ∃ resp, Response_init srid table geometry attrs cols bounds tol zoom clip
        op oe mp me =
      .ok (resp, attrs ++ [Attr.idHash geometry], insert "__id__" cols) := by
  have hg2 : "__geometry__" ∈ insert "__id__" cols :=
    Finset.mem_insert_of_mem hg
  have hid2 : "__id__" ∈ insert "__id__" cols := Finset.mem_insert_self _ _
  have e1 := build_query_id_missing srid table geometry attrs cols bounds tol
    true clip 0 none hg hid
  have e2 : ∀ (g c : Bool) (pad : ℚ) (sc : Option ℚ),
      build_query srid table geometry (attrs ++ [Attr.idHash geometry])
          (insert "__id__" cols) bounds tol g c pad sc =
        .ok (⟨attrs ++ [Attr.idHash geometry],
              pipelineGeom geometry bounds tol g c
                (paddedBBox bounds pad srid) sc,
              table, geometry, paddedBBox bounds pad srid⟩,
             attrs ++ [Attr.idHash geometry], insert "__id__" cols) :=
    fun g c pad sc =>
      build_query_id_present srid table geometry _ _ bounds tol g c pad sc
        hg2 hid2
  simp only [Response_init, e1, bind_ok_eq, e2, tolerancesAt_ok zoom hz]
  exact ⟨_, rfl⟩

/-- `Response.__init__` with both `__geometry__` and `__id__` present: the
attribute list and column set pass through the four `build_query` calls
unchanged. -/
theorem Response_init_id_present (srid : ℤ) (table geometry : String)
    (attrs : List Attr) (cols : Finset String) (bounds : Bounds)
    (tol : Option ℚ) (zoom : ℕ) (clip : Bool) (op oe mp me : ℚ)
    (hz : zoom < 22) (hg : "__geometry__" ∈ cols) (hid : "__id__" ∈ cols) :
    ∃ resp, Response_init srid table geometry attrs cols bounds tol zoom clip
        op oe mp me = .ok (resp, attrs, cols) := by
  have e : ∀ (g c : Bool) (pad : ℚ) (sc : Option ℚ),
      build_query srid table geometry attrs cols bounds tol g c pad sc =
        .ok (⟨attrs,
              pipelineGeom geometry bounds tol g c
                (paddedBBox bounds pad srid) sc,
              table, geometry, paddedBBox bounds pad srid⟩, attrs, cols) :=
    fun g c pad sc =>
      build_query_id_present srid table geometry _ _ bounds tol g c pad sc
        hg hid
  simp only [Response_init, e, bind_ok_eq, tolerancesAt_ok zoom hz]
  exact ⟨_, rfl⟩

/-- At zoom ≥ 22 with a well-formed column set, `Response.__init__` reaches
`tolerances[coord.zoom]` on line 287 and raises `IndexError`. -/
theorem Response_init_indexError (srid : ℤ) (table geometry : String)
    (attrs : List Attr) (cols : Finset String) (bounds : Bounds)
    (tol : Option ℚ) (zoom : ℕ) (clip : Bool) (op oe mp me : ℚ)
    (hz : 22 ≤ zoom) (hg : "__geometry__" ∈ cols) :
    Response_init srid table geometry attrs cols bounds tol zoom clip
      op oe mp me = .error .indexError := by
  have ht := tolerancesAt_indexError zoom hz
  by_cases hid : "__id__" ∈ cols
  · have e : ∀ (g c : Bool) (pad : ℚ) (sc : Option ℚ),
        build_query srid table geometry attrs cols bounds tol g c pad sc =
          .ok (⟨attrs,
                pipelineGeom geometry bounds tol g c
                  (paddedBBox bounds pad srid) sc,
                table, geometry, paddedBBox bounds pad srid⟩, attrs, cols) :=
      fun g c pad sc =>
        build_query_id_present srid table geometry _ _ bounds tol g c pad sc
          hg hid
    simp only [Response_init, e, bind_ok_eq, ht, bind_error_eq]
  · have hg2 : "__geometry__" ∈ insert "__id__" cols :=
      Finset.mem_insert_of_mem hg
    have hid2 : "__id__" ∈ insert "__id__" cols := Finset.mem_insert_self _ _
    have e1 := build_query_id_missing srid table geometry attrs cols bounds
      tol true clip 0 none hg hid
    have e2 : ∀ (g c : Bool) (pad : ℚ) (sc : Option ℚ),
        build_query srid table geometry (attrs ++ [Attr.idHash geometry])
            (insert "__id__" cols) bounds tol g c pad sc =
          .ok (⟨attrs ++ [Attr.idHash geometry],
                pipelineGeom geometry bounds tol g c
                  (paddedBBox bounds pad srid) sc,
                table, geometry, paddedBBox bounds pad srid⟩,
               attrs ++ [Attr.idHash geometry], insert "__id__" cols) :=
      fun g c pad sc =>
        build_query_id_present srid table geometry _ _ bounds tol g c pad sc
          hg2 hid2
    simp only [Response_init, e1, bind_ok_eq, e2, ht, bind_error_eq]

/-- C2 (code bug): for a tile request whose resolved zoom slot is null, the
source's `return EmptyResponse(bounds)` at line 157 references the local
`bounds` before its assignment at line 168, so `renderTile` raises
`UnboundLocalError` instead of returning the empty-tile response the claim
(and the provider's own docstring, "null queries indicate an empty
response") describes. No database call is made, but no valid empty payload
is produced either. -/
theorem c2_null_slot_raises_unbound_local :
    renderTile ⟨[none], [], [], "planet_osm", 900913, 1, 16, ∅, true⟩ 0
      ⟨0, 0, 1, 1⟩ (fun _ => ∅) 4 4096 8 4096 =
      .error (.unboundLocal "bounds") := rfl

/-- C9: when `__id__` is absent from the cached column set, `renderTile`
(through `build_query`'s in-place mutation of the attribute list and column
set it was handed) leaves the provider state with the hash identifier
appended to the stored per-geometry attribute list — exactly once, despite
four `build_query` calls — and with `__id__` registered in the cached
column set, both visible to every later request sharing that geometry
template. -/
theorem c9_mutation_persists (ps : ProviderState) (zoom : ℕ) (bounds : Bounds)
    (probe : String → Finset String) (op oe mp me : ℚ) (geometry : String)
    (attrs : List Attr) (cols : Finset String)
    (hz : zoom < 22)
    (hres : resolveGeometry ps.geometries zoom = .ok (some geometry))
    (hne : geometry ≠ "")
    (hattr : ps.attributes.lookup geometry = some attrs)
    (hcols : ps.columns.lookup geometry = some cols)
    (hg : "__geometry__" ∈ cols) (hid : "__id__" ∉ cols) :
    ∃ resp ps2,
      renderTile ps zoom bounds probe op oe mp me = .ok (resp, ps2) ∧
      ps2.attributes.lookup geometry =
        some (attrs ++ [Attr.idHash geometry]) ∧
      ∃ cols2, ps2.columns.lookup geometry = some cols2 ∧
        "__id__" ∈ cols2 := by
  obtain ⟨tol, htol⟩ := computeTolerance_isOk ps.suppress_simplification
    ps.simplify ps.simplify_until zoom hz
  have hlc : lookupColumns ps.columns geometry probe = (cols, ps.columns) := by
    simp [lookupColumns, hcols]
  obtain ⟨resp, hresp⟩ := Response_init_id_missing ps.srid ps.table geometry
    attrs cols bounds tol zoom ps.clip op oe mp me hz hg hid
  refine ⟨resp,
    { ps with
      columns := updateEntry ps.columns geometry (insert "__id__" cols),
      attributes :=
        updateEntry ps.attributes geometry
          (attrs ++ [Attr.idHash geometry]) }, ?_, ?_, ?_⟩
  · simp only [renderTile, hres, bind_ok_eq, if_neg hne, hattr,
      Option.getD_some, htol, hlc, hresp, Option.isSome_some, if_true]
  · exact lookup_updateEntry ps.attributes geometry _ attrs hattr
  · exact ⟨insert "__id__" cols,
      lookup_updateEntry ps.columns geometry _ cols hcols,
      Finset.mem_insert_self _ _⟩

/-- Witness for `c9_mutation_persists` at a concrete provider state with a
cached column set lacking `__id__`. -/
theorem c9_mutation_persists_witness :
    ∃ resp ps2,
      renderTile ⟨[some "way"], [("way", [Attr.plain "name"])],
          [("way", {"__geometry__"})], "planet_osm", 900913, 1, 16, ∅, true⟩
        0 ⟨0, 0, 1, 1⟩ (fun _ => ∅) 1 1 1 1 = .ok (resp, ps2) ∧
      ps2.attributes.lookup "way" =
        some ([Attr.plain "name"] ++ [Attr.idHash "way"]) ∧
      ∃ cols2, ps2.columns.lookup "way" = some cols2 ∧ "__id__" ∈ cols2 :=
  c9_mutation_persists
    ⟨[some "way"], [("way", [Attr.plain "name"])],
      [("way", {"__geometry__"})], "planet_osm", 900913, 1, 16, ∅, true⟩
    0 ⟨0, 0, 1, 1⟩ (fun _ => ∅) 1 1 1 1 "way" [Attr.plain "name"]
    {"__geometry__"} (by decide) (by decide) (by decide) (by decide)
    (by decide) (by decide) (by decide)

/-- C10: for every tile request at zoom ≥ 22 whose resolved geometry slot is
present (and non-empty, and whose resolved column set carries the mandatory
`__geometry__`), `renderTile` raises `IndexError` regardless of the
simplification settings: either line 164 indexes the 22-entry tolerance
table out of range, or — when the tolerance step yields `None` — lines
287-288 of `Response.__init__` do, while computing the proprietary-format
paddings. -/
theorem c10_high_zoom_index_error (ps : ProviderState) (zoom : ℕ)
    (bounds : Bounds) (probe : String → Finset String) (op oe mp me : ℚ)
    (geometry : String)
    (hz : 22 ≤ zoom)
    (hres : resolveGeometry ps.geometries zoom = .ok (some geometry))
    (hne : geometry ≠ "")
    (hg : "__geometry__" ∈ (lookupColumns ps.columns geometry probe).1) :
    renderTile ps zoom bounds probe op oe mp me = .error .indexError := by
  obtain ⟨cols, cache2, hlc⟩ :
      ∃ cols cache2, lookupColumns ps.columns geometry probe =
        (cols, cache2) := ⟨_, _, rfl⟩
  rw [hlc] at hg
  rcases computeTolerance_high_zoom ps.suppress_simplification ps.simplify
    ps.simplify_until zoom hz with htol | htol
  · have hri := Response_init_indexError ps.srid ps.table geometry
      ((ps.attributes.lookup geometry).getD []) cols bounds none zoom ps.clip
      op oe mp me hz hg
    simp only [renderTile, hres, bind_ok_eq, if_neg hne, htol, hlc, hri,
      bind_error_eq]
  · simp only [renderTile, hres, bind_ok_eq, if_neg hne, htol, bind_error_eq]

/-- Witness for `c10_high_zoom_index_error`: a single-entry table at zoom 22
(resolved through the tail fallback) with default simplification settings. -/
theorem c10_high_zoom_index_error_witness :
    renderTile ⟨[some "way"], [], [("way", {"__geometry__", "__id__"})],
        "planet_osm", 900913, 1, 16, ∅, true⟩ 22 ⟨0, 0, 1, 1⟩ (fun _ => ∅)
      1 1 1 1 = .error .indexError :=
  c10_high_zoom_index_error
    ⟨[some "way"], [], [("way", {"__geometry__", "__id__"})],
      "planet_osm", 900913, 1, 16, ∅, true⟩ 22 ⟨0, 0, 1, 1⟩ (fun _ => ∅)
    1 1 1 1 "way" (by decide) (by decide) (by decide) (by decide)

/-- One database row: column name → value (`none` models SQL NULL),
standing for the `RealDictCursor` dictionaries of `db.fetchall()`. -/
def Row : Type := List (String × Option String)

/-- One emitted feature tuple `(wkb, props, id)` (line 454). -/
structure Feature where
  wkb : Option String
  props : List (String × Option String)
  id : Option String
deriving DecidableEq, Repr

/-- The per-row body of the `get_features` fetch loop (lines 439-454):
assert `__geometry__` and `__id__` are present, pop them, decode the
geometry kind only when a type filter is configured and drop filtered-out
rows, and keep only non-null attributes. Returns how many times the WKB
decoder (`shapely.wkb.loads` + `__geo_interface__`, a black-box
WKB → geometry-kind classifier) was invoked, alongside the outcome. -/
def rowProps (r : Row) : List (String × Option String) :=
  ((r.filter (fun kv => kv.1 ≠ "__geometry__")).filter
    (fun kv => kv.1 ≠ "__id__")).filter (fun kv => kv.2.isSome)

/-- The feature tuple built from one row: the popped geometry and id values
and the remaining non-null attributes. -/
def rowFeature (r : Row) : Feature :=
  ⟨(List.lookup "__geometry__" r).join, rowProps r,
   (List.lookup "__id__" r).join⟩

def processRow (r : Row) (geometry_types : Option (List String))
    (decode : Option String → String) :
    ℕ × Except PyErr (Option Feature) :=
  match geometry_types with
  | none =>
    if ((List.lookup "__geometry__" r).isSome : Bool) = false then
      (0, .error (.assertionError "Missing __geometry__ in feature result"))
    else if ((List.lookup "__id__" r).isSome : Bool) = false then
      (0, .error (.assertionError "Missing __id__ in feature result"))
    else (0, .ok (some (rowFeature r)))
  | some filt =>
    if ((List.lookup "__geometry__" r).isSome : Bool) = false then
      (0, .error (.assertionError "Missing __geometry__ in feature result"))
    else if ((List.lookup "__id__" r).isSome : Bool) = false then
      (0, .error (.assertionError "Missing __id__ in feature result"))
    else if decode (rowFeature r).wkb ∈ filt then
      (1, .ok (some (rowFeature r)))
    else (1, .ok none)

/-- The whole fetch loop of `get_features` over the fetched rows, threading
the decoder invocation count; a failing assertion aborts the loop. -/
def processRows (rows : List Row) (geometry_types : Option (List String))
    (decode : Option String → String) :
    ℕ × Except PyErr (List Feature) :=
  match rows with
  | [] => (0, .ok [])
  | r :: rs =>
    match processRow r geometry_types decode with
    | (c, .error e) => (c, .error e)
    | (c, .ok of) =>
      match processRows rs geometry_types decode with
      | (c2, .error e) => (c + c2, .error e)
      | (c2, .ok fs) =>
        (c + c2, .ok (match of with | some ft => ft :: fs | none => fs))

/-- The database's behaviour on one execution attempt: a transient
`TransactionRollbackError`, or a row set. -/
inductive Outcome where
  | conflict
  | success (rows : List Row)

/-- `get_features` (lines 426-456). `db` maps the attempt number (the
source's `n_try`) to that execution's outcome; the returned list records the
query text of every executed attempt, in order. On a conflict with
`n_try >= 5` the error propagates; otherwise the call recurses with
`n_try + 1` and a fresh empty `features` list. -/
def get_features (db : ℕ → Outcome) (query : String)
    (geometry_types : Option (List String))
    (decode : Option String → String) (n_try : ℕ) :
    List String × Except PyErr (List Feature) :=
  match db n_try with
  | .conflict =>
    if h : 5 ≤ n_try then ([query], .error .transactionRollback)
    else
      let r := get_features db query geometry_types decode (n_try + 1)
      (query :: r.1, r.2)
  | .success rows => ([query], (processRows rows geometry_types decode).2)
termination_by 5 - n_try
decreasing_by
  simp_wf
  omega

/-- When every attempt from `n` through 5 hits a transient conflict, the
fetch executes the identical query on attempts `n, …, 5` and then propagates
the conflict. -/
theorem get_features_all_conflict (db : ℕ → Outcome) (q : String)
    (gt : Option (List String)) (d : Option String → String) :
    ∀ m n, n + m = 5 → (∀ i, n ≤ i → i ≤ 5 → db i = .conflict) →
      get_features db q gt d n =
        (List.replicate (m + 1) q, .error .transactionRollback) := by
  intro m
  induction m with
  | zero =>
    intro n hn hc
    have hn5 : n = 5 := by omega
    subst hn5
    unfold get_features
    rw [hc 5 (le_refl 5) (le_refl 5)]
    simp
  | succ m ih =>
    intro n hn hc
    unfold get_features
    rw [hc n (le_refl n) (by omega)]
    have h5 : ¬ 5 ≤ n := by omega
    rw [dif_neg h5]
    have hr := ih (n + 1) (by omega) (fun i h1 h2 => hc i (by omega) h2)
    rw [hr]
    simp [List.replicate_succ]

/-- When attempts `n, …, k-1` conflict and attempt `k ≤ 5` succeeds, the
fetch executes the identical query `k - n + 1` times and returns exactly the
processed row set of attempt `k`. -/
theorem get_features_success (db : ℕ → Outcome) (q : String)
    (gt : Option (List String)) (d : Option String → String)
    (rows : List Row) :
    ∀ m n k, n ≤ k → k ≤ 5 → k - n = m →
      (∀ i, n ≤ i → i < k → db i = .conflict) → db k = .success rows →
      get_features db q gt d n =
        (List.replicate (m + 1) q, (processRows rows gt d).2) := by
  intro m
  induction m with
  | zero =>
    intro n k h1 h2 h3 hc hk
    have hnk : n = k := by omega
    subst hnk
    unfold get_features
    rw [hk]
    simp
  | succ m ih =>
    intro n k h1 h2 h3 hc hk
    have hlt : n < k := by omega
    unfold get_features
    rw [hc n (le_refl n) hlt]
    have h5 : ¬ 5 ≤ n := by omega
    rw [dif_neg h5]
    have hr := ih (n + 1) k (by omega) h2 (by omega)
      (fun i hi1 hi2 => hc i (by omega) hi2) hk
    rw [hr]
    simp [List.replicate_succ]

/-- C3: starting from `n_try = 1`, `get_features` re-executes the identical
query text on transient conflicts, 5 attempts at most: if all five conflict
the `TransactionRollbackError` propagates; if some attempt `k ≤ 5` succeeds
first, the result is exactly the processed row set of that attempt (never
merged with or duplicated by the failed attempts), with `k` identical
executions in total. -/
theorem c3_retry_bounded (db : ℕ → Outcome) (q : String)
    (geometry_types : Option (List String))
    (decode : Option String → String) :
    ((∀ i, 1 ≤ i → i ≤ 5 → db i = .conflict) →
      get_features db q geometry_types decode 1 =
        (List.replicate 5 q, .error .transactionRollback)) ∧
    (∀ k rows, 1 ≤ k → k ≤ 5 →
      (∀ i, 1 ≤ i → i < k → db i = .conflict) → db k = .success rows →
      get_features db q geometry_types decode 1 =
        (List.replicate k q, (processRows rows geometry_types decode).2)) := by
  constructor
  · intro hc
    have h := get_features_all_conflict db q geometry_types decode 4 1
      (by omega) hc
    simpa using h
  · intro k rows h1 h5 hc hk
    have h := get_features_success db q geometry_types decode rows (k - 1) 1 k
      h1 h5 (by omega) hc hk
    have he : k - 1 + 1 = k := by omega
    rw [he] at h
    exact h

/-- Witness for `c3_retry_bounded`: attempts 1 and 2 conflict, attempt 3
succeeds with an empty row set; three identical executions, empty result. -/
theorem c3_retry_bounded_witness :
    get_features
        (fun n => if n < 3 then Outcome.conflict else Outcome.success [])
        "SELECT 1" none (fun _ => "Point") 1 =
      (List.replicate 3 "SELECT 1", .ok []) := by
  have h := (c3_retry_bounded
    (fun n => if n < 3 then Outcome.conflict else Outcome.success [])
    "SELECT 1" none (fun _ => "Point")).2 3 [] (by omega) (by omega)
    (by
      intro i h1 h2
      simp [show i < 3 by omega])
    (by norm_num)
  simpa [processRows] using h

theorem rowProps_isSome (r : Row) : ∀ p ∈ rowProps r, p.2.isSome = true := by
  intro p hp
  unfold rowProps at hp
  exact (List.mem_filter.mp hp).2

theorem processRow_none_count (r : Row) (d : Option String → String) :
    (processRow r none d).1 = 0 := by
  simp only [processRow]
  split
  · rfl
  · split
    · rfl
    · rfl

theorem processRow_some_ok (r : Row) (filt : List String)
    (d : Option String → String) (c : ℕ) (of : Option Feature)
    (h : processRow r (some filt) d = (c, .ok of)) :
    c = 1 ∧ ∀ f, of = some f → d f.wkb ∈ filt ∧ f.props = rowProps r := by
  simp only [processRow] at h
  by_cases h1 : ((List.lookup "__geometry__" r).isSome : Bool) = false
  · rw [if_pos h1] at h
    exact absurd h (by simp)
  · rw [if_neg h1] at h
    by_cases h2 : ((List.lookup "__id__" r).isSome : Bool) = false
    · rw [if_pos h2] at h
      exact absurd h (by simp)
    · rw [if_neg h2] at h
      by_cases h3 : d (rowFeature r).wkb ∈ filt
      · rw [if_pos h3] at h
        injection h with hc hrest
        injection hrest with hof
        refine ⟨hc.symm, fun f hf => ?_⟩
        rw [← hof] at hf
        injection hf with hff
        rw [← hff]
        exact ⟨h3, rfl⟩
      · rw [if_neg h3] at h
        injection h with hc hrest
        injection hrest with hof
        refine ⟨hc.symm, fun f hf => ?_⟩
        rw [← hof] at hf
        exact absurd hf (by simp)

theorem processRow_ok_props (r : Row) (gt : Option (List String))
    (d : Option String → String) (c : ℕ) (of : Option Feature)
    (h : processRow r gt d = (c, .ok of)) :
    ∀ f, of = some f → f.props = rowProps r := by
  cases gt with
  | some filt => exact fun f hf =>
      ((processRow_some_ok r filt d c of h).2 f hf).2
  | none =>
    simp only [processRow] at h
    by_cases h1 : ((List.lookup "__geometry__" r).isSome : Bool) = false
    · rw [if_pos h1] at h
      exact absurd h (by simp)
    · rw [if_neg h1] at h
      by_cases h2 : ((List.lookup "__id__" r).isSome : Bool) = false
      · rw [if_pos h2] at h
        exact absurd h (by simp)
      · rw [if_neg h2] at h
        injection h with hc hrest
        injection hrest with hof
        intro f hf
        rw [← hof] at hf
        injection hf with hff
        rw [← hff]
        rfl

theorem processRows_cons_headerr (r : Row) (rs : List Row)
    (gt : Option (List String)) (d : Option String → String) (c : ℕ)
    (e : PyErr) (h1 : processRow r gt d = (c, .error e)) :
    processRows (r :: rs) gt d = (c, .error e) := by
  simp only [processRows, h1]

theorem processRows_cons_tailerr (r : Row) (rs : List Row)
    (gt : Option (List String)) (d : Option String → String) (c : ℕ)
    (of : Option Feature) (c2 : ℕ) (e : PyErr)
    (h1 : processRow r gt d = (c, .ok of))
    (h2 : processRows rs gt d = (c2, .error e)) :
    processRows (r :: rs) gt d = (c + c2, .error e) := by
  simp only [processRows, h1, h2]

theorem processRows_cons_some (r : Row) (rs : List Row)
    (gt : Option (List String)) (d : Option String → String) (c : ℕ)
    (ft : Feature) (c2 : ℕ) (fs : List Feature)
    (h1 : processRow r gt d = (c, .ok (some ft)))
    (h2 : processRows rs gt d = (c2, .ok fs)) :
    processRows (r :: rs) gt d = (c + c2, .ok (ft :: fs)) := by
  simp only [processRows, h1, h2]

theorem processRows_cons_skip (r : Row) (rs : List Row)
    (gt : Option (List String)) (d : Option String → String) (c : ℕ)
    (c2 : ℕ) (fs : List Feature)
    (h1 : processRow r gt d = (c, .ok none))
    (h2 : processRows rs gt d = (c2, .ok fs)) :
    processRows (r :: rs) gt d = (c + c2, .ok fs) := by
  simp only [processRows, h1, h2]

theorem processRows_none_count (rows : List Row)
    (d : Option String → String) : (processRows rows none d).1 = 0 := by
  induction rows with
  | nil => rfl
  | cons r rs ih =>
    rcases hr : processRow r none d with ⟨c, res⟩
    have hc : c = 0 := by
      have h0 := processRow_none_count r d
      rw [hr] at h0
      exact h0
    cases res with
    | error e =>
      rw [processRows_cons_headerr r rs none d c e hr]
      exact hc
    | ok of =>
      rcases h2 : processRows rs none d with ⟨c2, res2⟩
      have hc2 : c2 = 0 := by
        rw [h2] at ih
        exact ih
      cases res2 with
      | error e2 =>
        rw [processRows_cons_tailerr r rs none d c of c2 e2 hr h2]
        simp [hc, hc2]
      | ok fs =>
        cases of with
        | some ft =>
          rw [processRows_cons_some r rs none d c ft c2 fs hr h2]
          simp [hc, hc2]
        | none =>
          rw [processRows_cons_skip r rs none d c c2 fs hr h2]
          simp [hc, hc2]

theorem processRows_filter_ok (rows : List Row) (filt : List String)
    (d : Option String → String) (feats : List Feature)
    (h : (processRows rows (some filt) d).2 = .ok feats) :
    (∀ f ∈ feats, d f.wkb ∈ filt) ∧
    (processRows rows (some filt) d).1 = rows.length := by
  induction rows generalizing feats with
  | nil =>
    have hf : feats = [] :=
      (Except.ok.inj (h : Except.ok [] = .ok feats)).symm
    subst hf
    exact ⟨fun f hf => absurd hf (List.not_mem_nil f), rfl⟩
  | cons r rs ih =>
    rcases hr : processRow r (some filt) d with ⟨c, res⟩
    cases res with
    | error e =>
      rw [processRows_cons_headerr r rs (some filt) d c e hr] at h
      exact absurd h (by simp)
    | ok of =>
      rcases h2 : processRows rs (some filt) d with ⟨c2, res2⟩
      cases res2 with
      | error e2 =>
        rw [processRows_cons_tailerr r rs (some filt) d c of c2 e2 hr h2] at h
        exact absurd h (by simp)
      | ok fs =>
        have hrow := processRow_some_ok r filt d c of hr
        have hih := ih fs (by rw [h2])
        have hc2 : c2 = rs.length := by
          have hcount := hih.2
          rw [h2] at hcount
          exact hcount
        have hc1 : c = 1 := hrow.1
        cases of with
        | some ft =>
          rw [processRows_cons_some r rs (some filt) d c ft c2 fs hr h2] at h
          have hfe : ft :: fs = feats := Except.ok.inj h
          constructor
          · intro f hf
            rw [← hfe] at hf
            rcases List.mem_cons.mp hf with hf1 | hf2
            · rw [hf1]
              exact (hrow.2 ft rfl).1
            · exact hih.1 f hf2
          · rw [processRows_cons_some r rs (some filt) d c ft c2 fs hr h2]
            simp only [List.length_cons]
            omega
        | none =>
          rw [processRows_cons_skip r rs (some filt) d c c2 fs hr h2] at h
          have hfe : fs = feats := Except.ok.inj h
          constructor
          · intro f hf
            rw [← hfe] at hf
            exact hih.1 f hf
          · rw [processRows_cons_skip r rs (some filt) d c c2 fs hr h2]
            simp only [List.length_cons]
            omega

theorem processRows_props_ok (rows : List Row)
    (gt : Option (List String)) (d : Option String → String)
    (feats : List Feature)
    (h : (processRows rows gt d).2 = .ok feats) :
    ∀ f ∈ feats, ∀ p ∈ f.props, p.2.isSome = true := by
  induction rows generalizing feats with
  | nil =>
    have hf : feats = [] :=
      (Except.ok.inj (h : Except.ok [] = .ok feats)).symm
    subst hf
    exact fun f hf => absurd hf (List.not_mem_nil f)
  | cons r rs ih =>
    rcases hr : processRow r gt d with ⟨c, res⟩
    cases res with
    | error e =>
      rw [processRows_cons_headerr r rs gt d c e hr] at h
      exact absurd h (by simp)
    | ok of =>
      rcases h2 : processRows rs gt d with ⟨c2, res2⟩
      cases res2 with
      | error e2 =>
        rw [processRows_cons_tailerr r rs gt d c of c2 e2 hr h2] at h
        exact absurd h (by simp)
      | ok fs =>
        cases of with
        | some ft =>
          rw [processRows_cons_some r rs gt d c ft c2 fs hr h2] at h
          have hfe : ft :: fs = feats := Except.ok.inj h
          intro f hf
          rw [← hfe] at hf
          rcases List.mem_cons.mp hf with hf1 | hf2
          · rw [hf1, processRow_ok_props r gt d c (some ft) hr ft rfl]
            exact rowProps_isSome r
          · exact ih fs (by rw [h2]) f hf2
        | none =>
          rw [processRows_cons_skip r rs gt d c c2 fs hr h2] at h
          have hfe : fs = feats := Except.ok.inj h
          intro f hf
          rw [← hfe] at hf
          exact ih fs (by rw [h2]) f hf

/-- C7: with a configured geometry-type filter, every feature surviving the
fetch loop has a decoded kind inside the filter, and the decoder runs once
per fetched row; with no filter configured the decoder is never invoked
(zero invocations, unconditionally); and every surviving feature's attribute
map carries only non-null values. -/
theorem c7_type_filter (rows : List Row) (decode : Option String → String) :
    ((processRows rows none decode).1 = 0) ∧
    (∀ filt feats,
      (processRows rows (some filt) decode).2 = .ok feats →
      (∀ f ∈ feats, decode f.wkb ∈ filt) ∧
      (processRows rows (some filt) decode).1 = rows.length) ∧
    (∀ gt feats, (processRows rows gt decode).2 = .ok feats →
      ∀ f ∈ feats, ∀ p ∈ f.props, p.2.isSome = true) :=
  ⟨processRows_none_count rows decode,
   fun filt feats h => processRows_filter_ok rows filt decode feats h,
   fun gt feats h => processRows_props_ok rows gt decode feats h⟩

/-- Witness for `c7_type_filter`: one row with a null-valued attribute and a
matching geometry kind; the surviving feature keeps only the non-null
attribute, its kind is in the filter, and the decoder ran once. -/
theorem c7_type_filter_witness :
    (∀ f ∈ [(⟨some "WKB1", [("name", some "A")], some "1"⟩ : Feature)],
      (fun _ => "Point") f.wkb ∈ ["Point"]) ∧
    (processRows [[("__geometry__", some "WKB1"), ("__id__", some "1"),
        ("name", some "A"), ("height", none)]] (some ["Point"])
        (fun _ => "Point")).1 = 1 :=
  (c7_type_filter [[("__geometry__", some "WKB1"), ("__id__", some "1"),
      ("name", some "A"), ("height", none)]] (fun _ => "Point")).2.1
    ["Point"] [⟨some "WKB1", [("name", some "A")], some "1"⟩] (by decide)

/-- A sub-layer tile payload as parsed by `json.loads`, abstracted to the
declared `type` field that `get_tiles` inspects. -/
structure TileBody where
  typ : String
deriving DecidableEq, Repr

/-- `format.lower()`, spelled over the underlying character list so that it
evaluates inside the kernel. -/
def strToLower (s : String) : String := String.mk (s.data.map Char.toLower)

/-- Line 402: the expected collection kind,
`'FeatureCollection' if (format.lower()=='json') else 'Topology'`. -/
def expectedKind (format : String) : String :=
  if strToLower format == "json" then "FeatureCollection" else "Topology"

/-- `mime.endswith('/json')` (line 396), spelled over the underlying
character list so that it evaluates inside the kernel. -/
def strEndsWith (s t : String) : Bool := t.data.isSuffixOf s.data

/-- `MultiResponse.get_tiles` (lines 388-407). `layerKeys` is
`config.layers.keys()`; `getTileFn` stands for the host tile interface
`getTile` at the fixed coordinate and format, returning each sub-layer's
`(mime, parsed body)`. Unknown layer names are rejected first (all of them,
line 392); then the first sub-layer whose mime type does not end in
`/json` (line 399); then the first sub-layer whose payload declares a type
other than the expected collection kind (line 405). -/
def get_tiles (layerKeys : List String)
    (getTileFn : String → String × TileBody) (names : List String)
    (format : String) : Except PyErr (List TileBody) :=
  match names.filter (fun n => !(layerKeys.contains n)) with
  | u :: us => .error (.unknownLayers (u :: us))
  | [] =>
    match names.filter
        (fun n => !(strEndsWith (getTileFn n).1 "/json")) with
    | n :: _ => .error (.badMime n (getTileFn n).1)
    | [] =>
      match names.filter
          (fun n => !((getTileFn n).2.typ == expectedKind format)) with
      | n :: _ => .error (.badType n (getTileFn n).2.typ)
      | [] => .ok (names.map (fun n => (getTileFn n).2))

theorem get_tiles_eq_unknown (layerKeys : List String)
    (getTileFn : String → String × TileBody) (names : List String)
    (format : String) (u : String) (us : List String)
    (hu : names.filter (fun n => !(layerKeys.contains n)) = u :: us) :
    get_tiles layerKeys getTileFn names format =
      .error (.unknownLayers (u :: us)) := by
  unfold get_tiles
  rw [hu]

theorem get_tiles_eq_badMime (layerKeys : List String)
    (getTileFn : String → String × TileBody) (names : List String)
    (format : String) (n : String) (bs : List String)
    (hu : names.filter (fun n => !(layerKeys.contains n)) = [])
    (hbm : names.filter
      (fun n => !(strEndsWith (getTileFn n).1 "/json")) = n :: bs) :
    get_tiles layerKeys getTileFn names format =
      .error (.badMime n (getTileFn n).1) := by
  unfold get_tiles
  rw [hu, hbm]

theorem get_tiles_eq_badType (layerKeys : List String)
    (getTileFn : String → String × TileBody) (names : List String)
    (format : String) (n : String) (bs : List String)
    (hu : names.filter (fun n => !(layerKeys.contains n)) = [])
    (hbm : names.filter
      (fun n => !(strEndsWith (getTileFn n).1 "/json")) = [])
    (hbt : names.filter
      (fun n => !((getTileFn n).2.typ == expectedKind format)) = n :: bs) :
    get_tiles layerKeys getTileFn names format =
      .error (.badType n (getTileFn n).2.typ) := by
  unfold get_tiles
  rw [hu, hbm, hbt]

theorem get_tiles_eq_ok (layerKeys : List String)
    (getTileFn : String → String × TileBody) (names : List String)
    (format : String)
    (hu : names.filter (fun n => !(layerKeys.contains n)) = [])
    (hbm : names.filter
      (fun n => !(strEndsWith (getTileFn n).1 "/json")) = [])
    (hbt : names.filter
      (fun n => !((getTileFn n).2.typ == expectedKind format)) = []) :
    get_tiles layerKeys getTileFn names format =
      .ok (names.map (fun n => (getTileFn n).2)) := by
  unfold get_tiles
  rw [hu, hbm, hbt]

/-- C8: the multi-layer collection merge path fails fatally — naming the
offending layer and value — whenever any requested sub-layer name is
unknown, any sub-layer's mime type does not end in `/json`, or any
sub-layer's payload declares a type other than the expected collection kind
(`FeatureCollection` for plain JSON, `Topology` otherwise); it succeeds
exactly when no sub-layer violates any of the three conditions, so no
violation is silently skipped. -/
theorem c8_merge_consistency (layerKeys : List String)
    (getTileFn : String → String × TileBody) (names : List String)
    (format : String) :
    ((∃ ts, get_tiles layerKeys getTileFn names format = .ok ts) ↔
      ∀ n ∈ names, n ∈ layerKeys ∧
        (strEndsWith (getTileFn n).1 "/json") = true ∧
        (getTileFn n).2.typ = expectedKind format) ∧
    (∀ ls, get_tiles layerKeys getTileFn names format =
        .error (.unknownLayers ls) →
      ls ≠ [] ∧ ∀ l ∈ ls, l ∈ names ∧ l ∉ layerKeys) ∧
    (∀ n m, get_tiles layerKeys getTileFn names format =
        .error (.badMime n m) →
      n ∈ names ∧ (getTileFn n).1 = m ∧ strEndsWith m "/json" = false) ∧
    (∀ n t, get_tiles layerKeys getTileFn names format =
        .error (.badType n t) →
      n ∈ names ∧ (getTileFn n).2.typ = t ∧
        t ≠ expectedKind format) := by
  refine ⟨⟨?_, ?_⟩, ?_, ?_, ?_⟩
  · rintro ⟨ts, ht⟩ n hn
    have hunil : names.filter (fun n => !(layerKeys.contains n)) = [] := by
      rcases hu : names.filter (fun n => !(layerKeys.contains n)) with
        _ | ⟨u0, us⟩
      · rfl
      · rw [get_tiles_eq_unknown layerKeys getTileFn names format u0 us hu]
          at ht
        exact absurd ht (by simp)
    have hbmnil : names.filter
        (fun n => !(strEndsWith (getTileFn n).1 "/json")) = [] := by
      rcases hbm : names.filter
          (fun n => !(strEndsWith (getTileFn n).1 "/json")) with _ | ⟨b0, bs⟩
      · rfl
      · rw [get_tiles_eq_badMime layerKeys getTileFn names format b0 bs
          hunil hbm] at ht
        exact absurd ht (by simp)
    have hbtnil : names.filter
        (fun n => !((getTileFn n).2.typ == expectedKind format)) = [] := by
      rcases hbt : names.filter
          (fun n => !((getTileFn n).2.typ == expectedKind format)) with
        _ | ⟨t0, ts2⟩
      · rfl
      · rw [get_tiles_eq_badType layerKeys getTileFn names format t0 ts2
          hunil hbmnil hbt] at ht
        exact absurd ht (by simp)
    refine ⟨?_, ?_, ?_⟩
    · by_contra hc
      have hmem : n ∈ names.filter (fun n => !(layerKeys.contains n)) :=
        List.mem_filter.mpr ⟨hn, by
          rw [Bool.not_eq_true']
          exact Bool.eq_false_iff.mpr (fun hcc => hc (List.elem_iff.mp hcc))⟩
      rw [hunil] at hmem
      exact absurd hmem (List.not_mem_nil n)
    · by_contra hc
      have hmem : n ∈ names.filter
          (fun n => !(strEndsWith (getTileFn n).1 "/json")) :=
        List.mem_filter.mpr ⟨hn, by
          rw [Bool.not_eq_true']
          exact Bool.eq_false_iff.mpr hc⟩
      rw [hbmnil] at hmem
      exact absurd hmem (List.not_mem_nil n)
    · by_contra hc
      have hmem : n ∈ names.filter
          (fun n => !((getTileFn n).2.typ == expectedKind format)) :=
        List.mem_filter.mpr ⟨hn, by
          rw [Bool.not_eq_true']
          exact beq_eq_false_iff_ne.mpr hc⟩
      rw [hbtnil] at hmem
      exact absurd hmem (List.not_mem_nil n)
  · intro hcond
    have hunil : names.filter (fun n => !(layerKeys.contains n)) = [] :=
      List.eq_nil_iff_forall_not_mem.mpr (fun a ha => by
        have hm := List.mem_filter.mp ha
        have h1 : layerKeys.contains a = false := by
          rw [← Bool.not_eq_true']
          exact hm.2
        have h2 := (hcond a hm.1).1
        rw [Bool.eq_false_iff] at h1
        exact h1 (List.elem_iff.mpr h2))
    have hbmnil : names.filter
        (fun n => !(strEndsWith (getTileFn n).1 "/json")) = [] :=
      List.eq_nil_iff_forall_not_mem.mpr (fun a ha => by
        have hm := List.mem_filter.mp ha
        have h1 : strEndsWith (getTileFn a).1 "/json" = false := by
          rw [← Bool.not_eq_true']
          exact hm.2
        rw [Bool.eq_false_iff] at h1
        exact h1 (hcond a hm.1).2.1)
    have hbtnil : names.filter
        (fun n => !((getTileFn n).2.typ == expectedKind format)) = [] :=
      List.eq_nil_iff_forall_not_mem.mpr (fun a ha => by
        have hm := List.mem_filter.mp ha
        have h1 : ((getTileFn a).2.typ == expectedKind format) = false := by
          rw [← Bool.not_eq_true']
          exact hm.2
        exact absurd (hcond a hm.1).2.2 (beq_eq_false_iff_ne.mp h1))
    exact ⟨_, get_tiles_eq_ok layerKeys getTileFn names format
      hunil hbmnil hbtnil⟩
  · intro ls hls
    rcases hu : names.filter (fun n => !(layerKeys.contains n)) with
      _ | ⟨u0, us⟩
    · rcases hbm : names.filter
          (fun n => !(strEndsWith (getTileFn n).1 "/json")) with _ | ⟨b0, bs⟩
      · rcases hbt : names.filter
            (fun n => !((getTileFn n).2.typ == expectedKind format)) with
          _ | ⟨t0, ts2⟩
        · rw [get_tiles_eq_ok layerKeys getTileFn names format hu hbm hbt]
            at hls
          exact absurd hls (by simp)
        · rw [get_tiles_eq_badType layerKeys getTileFn names format t0 ts2
            hu hbm hbt] at hls
          exact absurd hls (by simp)
      · rw [get_tiles_eq_badMime layerKeys getTileFn names format b0 bs
          hu hbm] at hls
        exact absurd hls (by simp)
    · rw [get_tiles_eq_unknown layerKeys getTileFn names format u0 us hu]
        at hls
      injection hls with h1
      injection h1 with h2
      refine ⟨by rw [← h2]; simp, fun l hl => ?_⟩
      rw [← h2] at hl
      have hl2 : l ∈ names.filter (fun n => !(layerKeys.contains n)) := by
        rw [hu]
        exact hl
      have hm := List.mem_filter.mp hl2
      refine ⟨hm.1, fun hcc => ?_⟩
      have h3 : layerKeys.contains l = false := by
        rw [← Bool.not_eq_true']
        exact hm.2
      rw [Bool.eq_false_iff] at h3
      exact h3 (List.elem_iff.mpr hcc)
  · intro n m hls
    rcases hu : names.filter (fun n => !(layerKeys.contains n)) with
      _ | ⟨u0, us⟩
    · rcases hbm : names.filter
          (fun n => !(strEndsWith (getTileFn n).1 "/json")) with _ | ⟨b0, bs⟩
      · rcases hbt : names.filter
            (fun n => !((getTileFn n).2.typ == expectedKind format)) with
          _ | ⟨t0, ts2⟩
        · rw [get_tiles_eq_ok layerKeys getTileFn names format hu hbm hbt]
            at hls
          exact absurd hls (by simp)
        · rw [get_tiles_eq_badType layerKeys getTileFn names format t0 ts2
            hu hbm hbt] at hls
          exact absurd hls (by simp)
      · rw [get_tiles_eq_badMime layerKeys getTileFn names format b0 bs
          hu hbm] at hls
        injection hls with h1
        injection h1 with hn2 hm2
        have hmem : b0 ∈ names.filter
            (fun n => !(strEndsWith (getTileFn n).1 "/json")) := by
          rw [hbm]
          exact List.mem_cons_self b0 bs
        have hmm := List.mem_filter.mp hmem
        have hfalse : strEndsWith (getTileFn b0).1 "/json" = false := by
          rw [← Bool.not_eq_true']
          exact hmm.2
        subst hn2
        refine ⟨hmm.1, hm2, ?_⟩
        rw [← hm2]
        exact hfalse
    · rw [get_tiles_eq_unknown layerKeys getTileFn names format u0 us hu]
        at hls
      exact absurd hls (by simp)
  · intro n t hls
    rcases hu : names.filter (fun n => !(layerKeys.contains n)) with
      _ | ⟨u0, us⟩
    · rcases hbm : names.filter
          (fun n => !(strEndsWith (getTileFn n).1 "/json")) with _ | ⟨b0, bs⟩
      · rcases hbt : names.filter
            (fun n => !((getTileFn n).2.typ == expectedKind format)) with
          _ | ⟨t0, ts2⟩
        · rw [get_tiles_eq_ok layerKeys getTileFn names format hu hbm hbt]
            at hls
          exact absurd hls (by simp)
        · rw [get_tiles_eq_badType layerKeys getTileFn names format t0 ts2
            hu hbm hbt] at hls
          injection hls with h1
          injection h1 with hn2 ht2
          have hmem : t0 ∈ names.filter
              (fun n => !((getTileFn n).2.typ == expectedKind format)) := by
            rw [hbt]
            exact List.mem_cons_self t0 ts2
          have hmm := List.mem_filter.mp hmem
          have hfalse : ((getTileFn t0).2.typ == expectedKind format)
              = false := by
            rw [← Bool.not_eq_true']
            exact hmm.2
          subst hn2
          refine ⟨hmm.1, ht2, ?_⟩
          rw [← ht2]
          exact beq_eq_false_iff_ne.mp hfalse
      · rw [get_tiles_eq_badMime layerKeys getTileFn names format b0 bs
          hu hbm] at hls
        exact absurd hls (by simp)
    · rw [get_tiles_eq_unknown layerKeys getTileFn names format u0 us hu]
        at hls
      exact absurd hls (by simp)

/-- Witness for `c8_merge_consistency`: two known sub-layers, both JSON
mimes, both `FeatureCollection` payloads, merge succeeds. -/
theorem c8_merge_consistency_witness :
    ∃ ts, get_tiles ["water", "land"]
        (fun _ => ("application/json", ⟨"FeatureCollection"⟩))
        ["water", "land"] "JSON" = .ok ts :=
  (c8_merge_consistency ["water", "land"]
    (fun _ => ("application/json", ⟨"FeatureCollection"⟩))
    ["water", "land"] "JSON").1.mpr (by decide)
